import Mathlib

/-!
Verification development for the art-portfolio CRUD application.

The definitions below are a shallow embedding of the TypeScript source:
  * `src/lib/utils.ts`        — `sanitizeFilename`
  * `src/lib/auth.ts`         — `checkAdminRole`
  * `src/models/Tag.ts`       — tag schema (required/enum/trim, unique indexes)
  * `src/models/Artwork.ts`   — artwork schema (unique name, maxlength bounds)
  * the NextAuth `session` callback
  * the HTTP handlers of `/api/tags`, `/api/tags/[id]`, `/api/gallery`,
    `/api/gallery/[id]` and the artwork listing route.

JS strings are modelled as `List Char` (one entry per scalar value); MongoDB
collections as Lean lists carrying explicit numeric ids; the S3 bucket as the
list of keys currently present.  Fallible operations return `Except`.
-/

namespace ArtPortfolio

/-! ### Characters and JS string primitives used by `sanitizeFilename` -/

/-- The character class of the JS regexp `\s` (ECMA-262 WhiteSpace ∪ LineTerminator). -/
def isJsSpace (c : Char) : Bool :=
  let n := c.toNat
  n == 9 || n == 10 || n == 11 || n == 12 || n == 13 || n == 32 ||
  n == 0xa0 || n == 0x1680 || (0x2000 ≤ n && n ≤ 0x200a) ||
  n == 0x2028 || n == 0x2029 || n == 0x202f || n == 0x205f ||
  n == 0x3000 || n == 0xfeff

/-- The character class `[a-zA-Z0-9-]`: the characters *kept* by
`.replace(/[^a-zA-Z0-9-]/g, "")` in `sanitizeFilename`. -/
def isKept (c : Char) : Bool :=
  let n := c.toNat
  (97 ≤ n && n ≤ 122) || (65 ≤ n && n ≤ 90) || (48 ≤ n && n ≤ 57) || n == 45

/-- A character that can appear in the base (pre-`.webp`) part of a sanitized
filename: lowercase ASCII letter, ASCII digit, or hyphen. -/
def isBaseChar (c : Char) : Bool :=
  let n := c.toNat
  (97 ≤ n && n ≤ 122) || (48 ≤ n && n ≤ 57) || n == 45

/-- A character that may occur in (the reverse of) a match of `[^/.]+`:
anything except `.` and `/`. -/
def extChar (c : Char) : Bool :=
  c != '.' && c != '/'

/-- `filename.replace(/\.[^/.]+$/, "")`: drop a trailing `.ext` where `ext` is a
nonempty run of characters other than `.` and `/`. -/
def stripExt (l : List Char) : List Char :=
  match l.reverse.takeWhile extChar, l.reverse.dropWhile extChar with
  | _ :: _, '.' :: rest => rest.reverse
  | _, _ => l

/-- Worker for `.replace(/\s+/g, "-")`: the flag records whether we are inside a
run of whitespace that has already emitted its hyphen. -/
def collapseSpacesAux : Bool → List Char → List Char
  | _, [] => []
  | inRun, c :: cs =>
    if isJsSpace c then
      if inRun then collapseSpacesAux true cs
      else '-' :: collapseSpacesAux true cs
    else c :: collapseSpacesAux false cs

/-- `.replace(/\s+/g, "-")`: each maximal run of whitespace becomes one hyphen. -/
def collapseSpaces (l : List Char) : List Char :=
  collapseSpacesAux false l

/-- The base of the sanitized filename: `sanitizeFilename` before the final
`.webp` suffix is appended (strip extension, truncate to 60, collapse
whitespace, remove non-`[a-zA-Z0-9-]`, lowercase). -/
def sanitizedBase (l : List Char) : List Char :=
  (((stripExt l).take 60 |> collapseSpaces).filter isKept).map Char.toLower

/-- `sanitizeFilename` from `src/lib/utils.ts` on `List Char`. -/
def sanitizeList (l : List Char) : List Char :=
  sanitizedBase l ++ ['.', 'w', 'e', 'b', 'p']

/-- `sanitizeFilename` from `src/lib/utils.ts`. -/
def sanitizeFilename (s : String) : String :=
  ⟨sanitizeList s.data⟩

/-! ### JS value helpers -/

/-- Truthiness test for an optional JS string: `undefined`, `null` and `""`
are falsy (`!label` in the handlers). -/
def strFalsy : Option String → Bool
  | none => true
  | some s => s == ""

/-- `a || b` for an optional JS string `a` with default `b`. -/
def jsOr (a : Option String) (b : String) : String :=
  match a with
  | some s => if s == "" then b else s
  | none => b

/-- `str.trim()` as run by the schema's `trim: true` setters: strip leading
and trailing whitespace/line terminators. -/
def jsTrim (s : String) : String :=
  ⟨((s.data.dropWhile isJsSpace).reverse.dropWhile isJsSpace).reverse⟩

/-- `str.replace(pat, rep)` with a string pattern: replace the first
occurrence only. -/
def replaceFirst (l : List Char) (pat rep : List Char) : List Char :=
  match l with
  | [] => []
  | c :: cs =>
    if pat.isPrefixOf l then rep ++ l.drop pat.length
    else c :: replaceFirst cs pat rep

/-- `sanitizedFilename.replace(".webp", "-thumbnail.webp")`. -/
def thumbKeyName (fn : String) : String :=
  ⟨replaceFirst fn.data ".webp".data "-thumbnail.webp".data⟩

/-- Scan for the `"://"` separator of a URL; returns the characters after it,
or `none` when there is none (in which case `new URL` throws). -/
def splitScheme : List Char → Option (List Char)
  | [] => none
  | ':' :: '/' :: '/' :: rest => some rest
  | _ :: rest => splitScheme rest

/-- `getKeyFromUrl`: `new URL(url).pathname.slice(1)`, and `""` when `new URL`
throws.  The pathname is everything from the first `/` after the host. -/
def getKeyFromUrl (url : String) : String :=
  match splitScheme url.data with
  | none => ""
  | some rest => ⟨(rest.dropWhile (fun c => c != '/')).drop 1⟩

/-! ### Data model (src/models/Tag.ts, src/models/Artwork.ts, Profile) -/

/-- The `enum` of `TagSchema.type`: `category | medium | size`. -/
def validTagType (t : String) : Bool :=
  t == "category" || t == "medium" || t == "size"

/-- A document of the `Tag` collection. -/
structure TagDoc where
  tid : Nat
  label : String
  ttype : String
deriving Repr, DecidableEq

/-- A document of the `Artwork` collection.  The artwork schema declares no
timestamps, so `createdAt` may be absent (`none`). -/
structure ArtworkDoc where
  aid : Nat
  name : String
  description : String
  src : String
  thumbSrc : String
  alt : String
  categories : List Nat
  medium : Nat
  size : Nat
  metaWidth : Nat
  metaHeight : Nat
  createdAt : Option Nat
deriving Repr, DecidableEq

/-- A document of the `Profile` collection (fields used by the session
callback). -/
structure ProfileDoc where
  authId : String
  role : String
deriving Repr, DecidableEq

/-- The document database: the two collections touched by the handlers plus a
fresh-id counter standing for ObjectId generation. -/
structure DB where
  tags : List TagDoc
  artworks : List ArtworkDoc
  nextId : Nat
deriving Repr, DecidableEq

/-! ### S3 object store: the set of keys currently present. -/

def s3Put (s3 : List String) (key : String) : List String :=
  key :: s3.filter (fun k => k != key)

def s3Delete (s3 : List String) (key : String) : List String :=
  s3.filter (fun k => k != key)

/-- `process.env.NEXT_PUBLIC_AWS_S3_BUCKET` (a fixed deployment constant). -/
def awsBucket : String := "BUCKET"

/-- `process.env.NEXT_PUBLIC_AWS_REGION` (a fixed deployment constant). -/
def awsRegion : String := "REGION"

/-- The public object URL built for a key in the gallery POST handlers. -/
def urlFor (key : String) : String :=
  "https://" ++ awsBucket ++ ".s3." ++ awsRegion ++ ".amazonaws.com/" ++ key

/-! ### Mongoose collection operations -/

/-- `Tag.findOne({ label, type })`. -/
def findTag (tags : List TagDoc) (label ttype : String) : Option TagDoc :=
  tags.find? (fun t => t.label == label && t.ttype == ttype)

/-- `Tag.findById(id)`. -/
def findTagById (tags : List TagDoc) (id : Nat) : Option TagDoc :=
  tags.find? (fun t => t.tid == id)

/-- `Tag.create({ label, type })`: the schema's `trim` setters and
`required`/`enum` validators run first; then MongoDB enforces the two unique
indexes declared in `src/models/Tag.ts` — the field-level `unique: true` on
`label` alone, and the compound `{ label: 1, type: 1 }` unique index. -/
def insertTag (db : DB) (label ttype : String) : Except Unit (TagDoc × DB) :=
  let label := jsTrim label
  let ttype := jsTrim ttype
  if label == "" then .error ()
  else if !(validTagType ttype) then .error ()
  else if db.tags.any (fun t => t.label == label) then .error ()
  else if db.tags.any (fun t => t.label == label && t.ttype == ttype) then .error ()
  else
    let doc : TagDoc := ⟨db.nextId, label, ttype⟩
    .ok (doc, { db with tags := db.tags ++ [doc], nextId := db.nextId + 1 })

/-- `Tag.findOneAndUpdate({ label, type }, { label, type },
{ upsert: true, new: true })`: return the existing tag (the update writes the
same values back), or insert a new one. -/
def upsertTag (db : DB) (label ttype : String) : Except Unit (TagDoc × DB) :=
  match findTag db.tags label ttype with
  | some t => .ok (t, db)
  | none => insertTag db label ttype

/-- `Artwork.findById(id)`. -/
def findArtworkById (artworks : List ArtworkDoc) (id : Nat) : Option ArtworkDoc :=
  artworks.find? (fun a => a.aid == id)

/-- `Artwork.create(fields)`: the schema's `maxlength` validators run first;
then MongoDB enforces the unique index on `name`. -/
def insertArtwork (db : DB) (name description src thumbSrc : String)
    (categories : List Nat) (medium size : Nat) (metaWidth metaHeight : Nat) :
    Except Unit (ArtworkDoc × DB) :=
  if name.length > 60 || description.length > 255 || src.length > 255 ||
      thumbSrc.length > 255 then .error ()
  else if db.artworks.any (fun a => a.name == name) then .error ()
  else
    let doc : ArtworkDoc :=
      ⟨db.nextId, name, description, src, thumbSrc, "", categories, medium, size,
        metaWidth, metaHeight, none⟩
    .ok (doc, { db with artworks := db.artworks ++ [doc], nextId := db.nextId + 1 })

/-- `Artwork.findByIdAndUpdate(id, fields, { new: true })`: update validators
do not run by default, but MongoDB still enforces the unique index on `name`.
Returns `none` when no document has the id.  `_id`s are unique, so
delete/update by id touches exactly the matching document. -/
def updateArtworkById (db : DB) (id : Nat) (upd : ArtworkDoc → ArtworkDoc) :
    Except Unit (Option ArtworkDoc × DB) :=
  match findArtworkById db.artworks id with
  | none => .ok (none, db)
  | some a =>
    let a' := upd a
    if db.artworks.any (fun b => b.aid != id && b.name == a'.name) then .error ()
    else
      .ok (some a',
        { db with artworks := db.artworks.map (fun b => if b.aid == id then a' else b) })

/-! ### Authentication (src/lib/auth.ts and the NextAuth session callback) -/

structure SessionUser where
  id : String
  role : Option String
deriving Repr, DecidableEq

structure Session where
  user : Option SessionUser
deriving Repr, DecidableEq

structure AuthErr where
  status : Nat
deriving Repr, DecidableEq

/-- `checkAdminRole()` from `src/lib/auth.ts`: `401` when `session?.user` is
missing, `403` when the role is missing or not `"admin"`, `null` otherwise. -/
def checkAdminRole (sess : Option Session) : Option AuthErr :=
  match sess with
  | none => some ⟨401⟩
  | some s =>
    match s.user with
    | none => some ⟨401⟩
    | some u =>
      match u.role with
      | none => some ⟨403⟩
      | some r => if r == "admin" then none else some ⟨403⟩

/-- The `session` callback of `authOptions`: set `session.user.id`, then look
up the `Profile` by `authId`; the role becomes `profile?.role || "user"`, and
`"user"` when the lookup throws (`lookupFails`). -/
def sessionCallback (profiles : List ProfileDoc) (lookupFails : Bool)
    (sess : Session) (userId : String) : Session :=
  match sess.user with
  | none => sess
  | some u =>
    if lookupFails then { user := some { u with id := userId, role := some "user" } }
    else
      let role :=
        match profiles.find? (fun p => p.authId == userId) with
        | some p => if p.role == "" then "user" else p.role
        | none => "user"
      { user := some { u with id := userId, role := some role } }

/-! ### HTTP handlers -/

/-- Result of a handler that can change the database and return a tag. -/
structure TagRes where
  status : Nat
  db : DB
  tag : Option TagDoc
deriving Repr, DecidableEq

/-- Result of a handler that can change the database and the object store. -/
structure StateRes where
  status : Nat
  db : DB
  s3 : List String
deriving Repr, DecidableEq

/-- Parsed JSON body of the tag endpoints (fields may be absent). -/
structure TagBody where
  label : Option String
  ttype : Option String

/-- `POST /api/tags`: admin check, required-field check, duplicate
`(label, type)` check, then `Tag.create`.  `body = none` models a request body
that fails to parse (`request.json()` throws, caught as 500). -/
def tagsPOST (sess : Option Session) (body : Option TagBody) (db : DB) : TagRes :=
  match checkAdminRole sess with
  | some e => ⟨e.status, db, none⟩
  | none =>
  match sess with
  | none => ⟨401, db, none⟩
  | some _ =>
  match body with
  | none => ⟨500, db, none⟩
  | some b =>
    if strFalsy b.label || strFalsy b.ttype then ⟨400, db, none⟩
    else
      let l := b.label.getD ""
      let t := b.ttype.getD ""
      match findTag db.tags l t with
      | some _ => ⟨400, db, none⟩
      | none =>
        match insertTag db l t with
        | .ok (doc, db') => ⟨200, db', some doc⟩
        | .error _ => ⟨500, db, none⟩

/-- `PUT /api/tags/[id]`: admin check, then `Tag.findByIdAndUpdate` (no
validators, but the unique indexes are enforced; an absent field is stripped
from the `$set` and left unchanged). -/
def tagIdPUT (sess : Option Session) (id : Nat) (body : Option TagBody) (db : DB) :
    TagRes :=
  match checkAdminRole sess with
  | some e => ⟨e.status, db, none⟩
  | none =>
  match sess with
  | none => ⟨401, db, none⟩
  | some _ =>
  match body with
  | none => ⟨500, db, none⟩
  | some b =>
    match findTagById db.tags id with
    | none => ⟨404, db, none⟩
    | some t =>
      let newLabel := match b.label with | some l => jsTrim l | none => t.label
      let newType := match b.ttype with | some ty => jsTrim ty | none => t.ttype
      if db.tags.any (fun u => u.tid != id && u.label == newLabel) then ⟨500, db, none⟩
      else if db.tags.any (fun u =>
          u.tid != id && u.label == newLabel && u.ttype == newType) then ⟨500, db, none⟩
      else
        let t' : TagDoc := ⟨t.tid, newLabel, newType⟩
        ⟨200, { db with tags := db.tags.map (fun u => if u.tid == id then t' else u) },
          some t'⟩

/-- Result of a handler that can only change the database. -/
structure DbRes where
  status : Nat
  db : DB
deriving Repr, DecidableEq

/-- `DELETE /api/tags/[id]`: admin check, then `Tag.findByIdAndDelete`;
artworks are never touched. -/
def tagIdDELETE (sess : Option Session) (id : Nat) (db : DB) : DbRes :=
  match checkAdminRole sess with
  | some e => ⟨e.status, db⟩
  | none =>
  match sess with
  | none => ⟨401, db⟩
  | some _ =>
    match findTagById db.tags id with
    | none => ⟨404, db⟩
    | some _ => ⟨200, { db with tags := db.tags.filter (fun t => t.tid != id) }⟩

/-- `artwork.categories[0]?.label` / `artwork.medium?.label` after populate:
resolve the referenced tag, `none` when the reference dangles. -/
def labelOfTag (db : DB) (tid : Nat) : Option String :=
  (findTagById db.tags tid).map (fun t => t.label)

/-- Fields read from the `formData` of the per-artwork PUT. -/
structure FormPut where
  title : Option String
  description : Option String
  category : Option String
  medium : Option String
  size : Option String

/-- `PUT /api/gallery/[id]` (per-artwork route): admin check, fetch the
existing artwork, upsert the three tags with `field || existing label ||
default` labels, then `findByIdAndUpdate` with the new name, description and
tag references.  No S3 command is ever issued by this handler. -/
def artworkPUT (sess : Option Session) (id : Nat) (form : FormPut) (db : DB)
    (s3 : List String) : StateRes :=
  match checkAdminRole sess with
  | some e => ⟨e.status, db, s3⟩
  | none =>
  match sess with
  | none => ⟨401, db, s3⟩
  | some _ =>
    match findArtworkById db.artworks id with
    | none => ⟨404, db, s3⟩
    | some existing =>
      let catLabel :=
        jsOr form.category
          (jsOr ((existing.categories.head?).bind (labelOfTag db)) "Uncategorized")
      let medLabel := jsOr form.medium (jsOr (labelOfTag db existing.medium) "Mixed Media")
      let sizeLabel := jsOr form.size (jsOr (labelOfTag db existing.size) "Unknown")
      match upsertTag db catLabel "category" with
      | .error _ => ⟨500, db, s3⟩
      | .ok (categoryTag, db1) =>
      match upsertTag db1 medLabel "medium" with
      | .error _ => ⟨500, db1, s3⟩
      | .ok (mediumTag, db2) =>
      match upsertTag db2 sizeLabel "size" with
      | .error _ => ⟨500, db2, s3⟩
      | .ok (sizeTag, db3) =>
        match updateArtworkById db3 id (fun a =>
            { a with
              name := jsOr form.title existing.name
              description := jsOr form.description existing.description
              categories := [categoryTag.tid]
              medium := mediumTag.tid
              size := sizeTag.tid }) with
        | .error _ => ⟨500, db3, s3⟩
        | .ok (none, db4) => ⟨404, db4, s3⟩
        | .ok (some _, db4) => ⟨200, db4, s3⟩

/-- `DELETE /api/gallery/[id]` (per-artwork route): admin check, look up the
artwork, best-effort S3 deletion of image and thumbnail inside a try/catch
(`s3ok1`/`s3ok2` say whether each `s3Client.send` succeeds; a failure aborts
the remaining S3 deletions only), then `Artwork.findByIdAndDelete`. -/
def artworkDELETE (sess : Option Session) (id : Nat) (s3ok1 s3ok2 : Bool)
    (db : DB) (s3 : List String) : StateRes :=
  match checkAdminRole sess with
  | some e => ⟨e.status, db, s3⟩
  | none =>
  match sess with
  | none => ⟨401, db, s3⟩
  | some _ =>
    match findArtworkById db.artworks id with
    | none => ⟨404, db, s3⟩
    | some artwork =>
      let s3' :=
        match splitScheme artwork.src.data, splitScheme artwork.thumbSrc.data with
        | none, _ => s3
        | some _, none => s3
        | some _, some _ =>
          let originalPath := getKeyFromUrl artwork.src
          let thumbnailPath := getKeyFromUrl artwork.thumbSrc
          if originalPath != "" then
            if s3ok1 then
              let s3a := s3Delete s3 originalPath
              if thumbnailPath != "" then
                if s3ok2 then s3Delete s3a thumbnailPath else s3a
              else s3a
            else s3
          else
            if thumbnailPath != "" then
              if s3ok2 then s3Delete s3 thumbnailPath else s3
            else s3
      ⟨200, { db with artworks := db.artworks.filter (fun b => b.aid != id) }, s3'⟩

/-- Parsed `data` JSON of the gallery POST (all fields optional). -/
structure UploadData where
  title : Option String
  description : Option String
  category : Option String
  medium : Option String
  size : Option String
deriving Repr, DecidableEq

/-- `POST /api/gallery`: admin check, file/data validation, S3 upload of image
and thumbnail (`uploadOk`/`thumbOk` say whether each `uploadToS3` succeeds),
upsert of the three tags, then `Artwork.create`.  `file` is the uploaded
file's name; `data = none` models `JSON.parse` failure. -/
def galleryPOST (sess : Option Session) (file : Option String)
    (data : Option UploadData) (isBatchUpload : Bool) (uploadOk thumbOk : Bool)
    (db : DB) (s3 : List String) : StateRes :=
  match checkAdminRole sess with
  | some e => ⟨e.status, db, s3⟩
  | none =>
  match file with
  | none => ⟨400, db, s3⟩
  | some fileName =>
  match data with
  | none => ⟨400, db, s3⟩
  | some d =>
    let sanitizedFilename :=
      sanitizeFilename (if isBatchUpload then fileName else jsOr d.title fileName)
    let key := "genacourtney/images/" ++ sanitizedFilename
    let thumbnailKey := "genacourtney/images/thumbnails/" ++ thumbKeyName sanitizedFilename
    if !uploadOk then ⟨500, db, s3⟩
    else
      let s3a := s3Put s3 key
      if !thumbOk then ⟨500, db, s3a⟩
      else
        let s3b := s3Put s3a thumbnailKey
        match upsertTag db (jsOr d.category "Uncategorized") "category" with
        | .error _ => ⟨500, db, s3b⟩
        | .ok (categoryTag, db1) =>
        match upsertTag db1 (jsOr d.medium "Mixed Media") "medium" with
        | .error _ => ⟨500, db1, s3b⟩
        | .ok (mediumTag, db2) =>
        match upsertTag db2 (jsOr d.size "Various") "size" with
        | .error _ => ⟨500, db2, s3b⟩
        | .ok (sizeTag, db3) =>
          match insertArtwork db3 (jsOr d.title ⟨stripExt fileName.data⟩)
              (jsOr d.description "") (urlFor key) (urlFor thumbnailKey)
              [categoryTag.tid] mediumTag.tid sizeTag.tid 0 0 with
          | .error _ => ⟨500, db3, s3b⟩
          | .ok (_, db4) => ⟨200, db4, s3b⟩

/-- Sort key for `.sort({ createdAt: -1 })`: a missing `createdAt` sorts below
every present value. -/
def caVal : Option Nat → Nat
  | none => 0
  | some n => n + 1

/-- Insert into a list that is sorted by descending `createdAt`. -/
def insertDesc (a : ArtworkDoc) : List ArtworkDoc → List ArtworkDoc
  | [] => [a]
  | b :: l =>
    if caVal b.createdAt ≤ caVal a.createdAt then a :: b :: l
    else b :: insertDesc a l

/-- `.sort({ createdAt: -1 })` as an insertion sort. -/
def sortByCreatedAtDesc : List ArtworkDoc → List ArtworkDoc
  | [] => []
  | a :: l => insertDesc a (sortByCreatedAtDesc l)

/-- Result of the unfiltered listing (`artworks` in the JSON response is the
image of `items` under a per-item transformation that never drops items). -/
structure ListRes where
  status : Nat
  items : List ArtworkDoc
  total : Nat
deriving Repr, DecidableEq

/-- `GET /api/gallery`: `page`/`limit` from the query string (defaults 1 and
12), `total = Artwork.countDocuments()`, items sorted by `createdAt`
descending, then `skip((page - 1) * limit).limit(limit)`.  The skip is the
integer `(page - 1) * limit`; MongoDB rejects a negative skip (e.g. `page=0`),
which the handler's catch turns into a 500 whose body carries no
artworks/total. -/
def galleryGET (db : DB) (pageParam limitParam : Option Nat) : ListRes :=
  let page := pageParam.getD 1
  let limit := limitParam.getD 12
  let skip : Int := ((page : Int) - 1) * (limit : Int)
  if skip < 0 then ⟨500, [], 0⟩
  else
    let total := db.artworks.length
    let items := ((sortByCreatedAtDesc db.artworks).drop skip.toNat).take limit
    ⟨200, items, total⟩

/-- Result of the filtered listing. -/
structure FilteredListRes where
  status : Nat
  items : List ArtworkDoc
  total : Nat
  totalPages : Nat
deriving Repr, DecidableEq

/-- The Mongo query built by the filtered listing GET: each present filter
whose tag exists adds a constraint; a filter whose tag does not exist adds
none. -/
def buildQuery (tags : List TagDoc) (category medium size : Option String)
    (a : ArtworkDoc) : Bool :=
  (if strFalsy category then true
   else match findTag tags (category.getD "") "category" with
        | none => true
        | some t => a.categories.contains t.tid) &&
  (if strFalsy medium then true
   else match findTag tags (medium.getD "") "medium" with
        | none => true
        | some t => a.medium == t.tid) &&
  (if strFalsy size then true
   else match findTag tags (size.getD "") "size" with
        | none => true
        | some t => a.size == t.tid)

/-- The filtered artwork listing GET: query built from `category`, `medium`,
`size`; `total = Artwork.countDocuments(query)`; the page window as in the
unfiltered listing; `totalPages = Math.ceil(total / limit)`.  As in
`galleryGET`, a negative skip (e.g. `page=0`) makes the find throw and the
handler answer 500. -/
def artworkListGET (db : DB) (pageParam limitParam : Option Nat)
    (category medium size : Option String) : FilteredListRes :=
  let page := pageParam.getD 1
  let limit := limitParam.getD 12
  let skip : Int := ((page : Int) - 1) * (limit : Int)
  if skip < 0 then ⟨500, [], 0, 0⟩
  else
    let matching := db.artworks.filter (buildQuery db.tags category medium size)
    let total := matching.length
    let items := ((sortByCreatedAtDesc matching).drop skip.toNat).take limit
    ⟨200, items, total, (total + limit - 1) / limit⟩

/-- Parsed `data` JSON of the gallery-collection PUT (the dashboard always
sends every field). -/
structure PutData where
  title : String
  description : String
  category : String
  medium : String
  size : String
deriving Repr, DecidableEq

/-- `PUT /api/gallery` (collection route): session check only — no
`checkAdminRole` — then tag upserts and `Artwork.findByIdAndUpdate`.
`data = none` models `JSON.parse` failure. -/
def galleryCollectionPUT (sess : Option Session) (id : Nat) (data : Option PutData)
    (db : DB) (s3 : List String) : StateRes :=
  match sess with
  | none => ⟨401, db, s3⟩
  | some _ =>
  match data with
  | none => ⟨500, db, s3⟩
  | some d =>
    match upsertTag db d.category "category" with
    | .error _ => ⟨500, db, s3⟩
    | .ok (categoryTag, db1) =>
    match upsertTag db1 d.medium "medium" with
    | .error _ => ⟨500, db1, s3⟩
    | .ok (mediumTag, db2) =>
    match upsertTag db2 d.size "size" with
    | .error _ => ⟨500, db2, s3⟩
    | .ok (sizeTag, db3) =>
      match updateArtworkById db3 id (fun a =>
          { a with
            name := d.title
            description := d.description
            categories := [categoryTag.tid]
            medium := mediumTag.tid
            size := sizeTag.tid
            metaWidth := 0
            metaHeight := 0 }) with
      | .error _ => ⟨500, db3, s3⟩
      | .ok (none, db4) => ⟨404, db4, s3⟩
      | .ok (some _, db4) => ⟨200, db4, s3⟩

/-- `DELETE /api/gallery` (collection route): session check only — no
`checkAdminRole` — then `Artwork.findByIdAndDelete`. -/
def galleryCollectionDELETE (sess : Option Session) (id : Nat) (db : DB)
    (s3 : List String) : StateRes :=
  match sess with
  | none => ⟨401, db, s3⟩
  | some _ =>
    match findArtworkById db.artworks id with
    | none => ⟨404, db, s3⟩
    | some _ =>
      ⟨200, { db with artworks := db.artworks.filter (fun b => b.aid != id) }, s3⟩


/-! ### Concrete fixtures used to evaluate the handlers -/

/-- A session whose profile role is `"admin"`. -/
def adminSession : Option Session := some ⟨some ⟨"u1", some "admin"⟩⟩

/-- A stored artwork whose image keys are derived from its name `old-name`. -/
def artFix : ArtworkDoc :=
  ⟨1, "old-name", "d", urlFor "genacourtney/images/old-name.webp",
    urlFor "genacourtney/images/thumbnails/old-name-thumbnail.webp", "",
    [10], 11, 12, 0, 0, none⟩

/-- Tags referenced by `artFix`. -/
def tagsFix : List TagDoc :=
  [⟨10, "Paint", "category"⟩, ⟨11, "Oil", "medium"⟩, ⟨12, "Big", "size"⟩]

/-- A database holding `artFix` and its tags. -/
def dbFix : DB := ⟨tagsFix, [artFix], 13⟩

/-- The object store holding exactly the two keys of `artFix`. -/
def s3Fix : List String :=
  ["genacourtney/images/old-name.webp",
   "genacourtney/images/thumbnails/old-name-thumbnail.webp"]

/-- An artwork named `dup`, used to collide with an upload titled `dup`. -/
def artDup : ArtworkDoc := ⟨0, "dup", "", "", "", "", [], 0, 0, 0, 0, none⟩

/-- Two artworks with distinct `createdAt` values, newest first after sorting. -/
def artP : ArtworkDoc := ⟨21, "p", "", "", "", "", [], 0, 0, 0, 0, some 5⟩

/-- See `artP`. -/
def artQ : ArtworkDoc := ⟨22, "q", "", "", "", "", [], 0, 0, 0, 0, some 3⟩

/-- A database with two artworks for exercising the pagination. -/
def dbPage : DB := ⟨[], [artQ, artP], 23⟩

/-! ### Lemmas about the admin check -/

theorem checkAdminRole_not_admin {u : SessionUser} (h : u.role ≠ some "admin") :
    checkAdminRole (some ⟨some u⟩) = some ⟨403⟩ := by
  cases hr : u.role with
  | none => simp [checkAdminRole, hr]
  | some r =>
    have hne : (r == "admin") = false :=
      beq_eq_false_iff_ne.mpr (fun e => h (by rw [hr, e]))
    simp [checkAdminRole, hr, hne]

theorem checkAdminRole_eq_none_iff (s : Option Session) :
    checkAdminRole s = none ↔
      ∃ v : SessionUser, s = some ⟨some v⟩ ∧ v.role = some "admin" := by
  constructor
  · intro h
    cases s with
    | none => simp [checkAdminRole] at h
    | some sess =>
      obtain ⟨user⟩ := sess
      cases user with
      | none => simp [checkAdminRole] at h
      | some v =>
        obtain ⟨vid, vrole⟩ := v
        refine ⟨⟨vid, vrole⟩, rfl, ?_⟩
        cases vrole with
        | none => simp [checkAdminRole] at h
        | some r =>
          by_cases hr : (r == "admin") = true
          · simp [eq_of_beq hr]
          · simp [checkAdminRole, hr] at h
  · rintro ⟨v, rfl, hr⟩
    obtain ⟨vid, vrole⟩ := v
    simp only [SessionUser.role] at hr
    subst hr
    simp [checkAdminRole]

theorem checkAdminRole_none_elim {sess : Option Session}
    (h : checkAdminRole sess = none) :
    ∃ v : SessionUser, sess = some ⟨some v⟩ ∧ v.role = some "admin" :=
  (checkAdminRole_eq_none_iff sess).1 h

/-! ### Properties of `sanitizeFilename` -/

theorem collapseSpacesAux_length_le (l : List Char) :
    ∀ b, (collapseSpacesAux b l).length ≤ l.length := by
  induction l with
  | nil => intro b; simp [collapseSpacesAux]
  | cons c cs ih =>
    intro b
    unfold collapseSpacesAux
    by_cases hc : isJsSpace c = true
    · simp only [hc, if_true]
      cases b with
      | true => simpa using Nat.le_succ_of_le (ih true)
      | false => simpa using ih true
    · simp only [hc, if_false, List.length_cons]
      exact Nat.succ_le_succ (ih false)

theorem collapseSpacesAux_eq_self (l : List Char)
    (h : ∀ c ∈ l, isJsSpace c = false) : ∀ b, collapseSpacesAux b l = l := by
  induction l with
  | nil => intro b; rfl
  | cons c cs ih =>
    intro b
    have hc : isJsSpace c = false := h c (List.mem_cons_self c cs)
    unfold collapseSpacesAux
    simp only [hc]
    simp [ih (fun x hx => h x (List.mem_cons_of_mem c hx)) false]

theorem length_sanitizedBase_le (l : List Char) : (sanitizedBase l).length ≤ 60 := by
  unfold sanitizedBase
  calc ((((stripExt l).take 60 |> collapseSpaces).filter isKept).map Char.toLower).length
      = (((stripExt l).take 60 |> collapseSpaces).filter isKept).length := List.length_map _ _
    _ ≤ ((stripExt l).take 60 |> collapseSpaces).length := List.length_filter_le _ _
    _ ≤ ((stripExt l).take 60).length := collapseSpacesAux_length_le _ false
    _ ≤ 60 := by simp [List.length_take]

theorem toLower_toNat_of_upper {c : Char} (h1 : 65 ≤ c.toNat) (h2 : c.toNat ≤ 90) :
    (Char.toLower c).toNat = c.toNat + 32 := by
  unfold Char.toLower
  rw [if_pos ⟨h1, h2⟩]
  have hv : (c.toNat + 32).isValidChar := Or.inl (by omega)
  rw [Char.ofNat, dif_pos hv]
  rfl

theorem toLower_eq_of_not_upper {c : Char} (h : ¬(65 ≤ c.toNat ∧ c.toNat ≤ 90)) :
    Char.toLower c = c := by
  unfold Char.toLower
  rw [if_neg h]

theorem isBaseChar_toLower {c : Char} (h : isKept c = true) :
    isBaseChar c.toLower = true := by
  simp only [isKept, Bool.or_eq_true, Bool.and_eq_true, decide_eq_true_eq, beq_iff_eq] at h
  by_cases hu : 65 ≤ c.toNat ∧ c.toNat ≤ 90
  · have hl := toLower_toNat_of_upper hu.1 hu.2
    simp only [isBaseChar, hl, Bool.or_eq_true, Bool.and_eq_true, decide_eq_true_eq, beq_iff_eq]
    omega
  · rw [toLower_eq_of_not_upper hu]
    simp only [isBaseChar, Bool.or_eq_true, Bool.and_eq_true, decide_eq_true_eq, beq_iff_eq]
    omega

theorem mem_sanitizedBase_isBaseChar {l : List Char} {c : Char}
    (h : c ∈ sanitizedBase l) : isBaseChar c = true := by
  unfold sanitizedBase at h
  rcases List.mem_map.1 h with ⟨c', hc', rfl⟩
  exact isBaseChar_toLower (List.of_mem_filter hc')

theorem isBaseChar_not_space {c : Char} (h : isBaseChar c = true) :
    isJsSpace c = false := by
  simp only [isBaseChar, Bool.or_eq_true, Bool.and_eq_true, decide_eq_true_eq,
    beq_iff_eq] at h
  simp only [isJsSpace, Bool.or_eq_true, Bool.and_eq_true, decide_eq_true_eq, beq_iff_eq,
    Bool.or_eq_false_iff, Bool.and_eq_false_iff, decide_eq_false_iff_not, beq_eq_false_iff_ne,
    ne_eq]
  omega

theorem isBaseChar_isKept {c : Char} (h : isBaseChar c = true) : isKept c = true := by
  simp only [isBaseChar, Bool.or_eq_true, Bool.and_eq_true, decide_eq_true_eq, beq_iff_eq] at h
  simp only [isKept, Bool.or_eq_true, Bool.and_eq_true, decide_eq_true_eq, beq_iff_eq]
  omega

theorem isBaseChar_toLower_self {c : Char} (h : isBaseChar c = true) :
    Char.toLower c = c := by
  simp only [isBaseChar, Bool.or_eq_true, Bool.and_eq_true, decide_eq_true_eq, beq_iff_eq] at h
  exact toLower_eq_of_not_upper (by omega)

theorem map_eq_self_of_mem {α : Type} {f : α → α} {l : List α}
    (h : ∀ c ∈ l, f c = c) : l.map f = l := by
  induction l with
  | nil => rfl
  | cons a l ih =>
    simp only [List.map_cons, h a (List.mem_cons_self a l),
      ih (fun c hc => h c (List.mem_cons_of_mem a hc))]

/-- The `.webp` suffix appended by `sanitizeFilename` is exactly what
`replace(/\.[^/.]+$/, "")` strips off again. -/
theorem stripExt_append_webp (l : List Char) :
    stripExt (l ++ ['.', 'w', 'e', 'b', 'p']) = l := by
  have h : (l ++ ['.', 'w', 'e', 'b', 'p']).reverse = 'p' :: 'b' :: 'e' :: 'w' :: '.' :: l.reverse := by
    simp
  have ht : ∀ r : List Char, ('p' :: 'b' :: 'e' :: 'w' :: '.' :: r).takeWhile extChar = ['p','b','e','w'] :=
    fun _ => rfl
  have hd : ∀ r : List Char, ('p' :: 'b' :: 'e' :: 'w' :: '.' :: r).dropWhile extChar = '.' :: r :=
    fun _ => rfl
  unfold stripExt
  rw [h, ht, hd]
  exact List.reverse_reverse l

/-- C9: every output of `sanitizeFilename` is a base of at most 60 characters,
each a lowercase ASCII letter, digit or hyphen, followed by `.webp`; and
`sanitizeFilename` is idempotent. -/
theorem sanitizeFilename_spec (s : String) :
    (sanitizeFilename s = ⟨sanitizedBase s.data ++ ['.', 'w', 'e', 'b', 'p']⟩ ∧
      (sanitizedBase s.data).length ≤ 60 ∧
      (∀ c ∈ sanitizedBase s.data, isBaseChar c = true)) ∧
    sanitizeFilename (sanitizeFilename s) = sanitizeFilename s := by
  refine ⟨⟨rfl, length_sanitizedBase_le _, fun c hc => mem_sanitizedBase_isBaseChar hc⟩, ?_⟩
  show (⟨sanitizeList (sanitizeList s.data)⟩ : String) = ⟨sanitizeList s.data⟩
  congr 1
  set b := sanitizedBase s.data with hb
  have hbase : ∀ c ∈ b, isBaseChar c = true := fun c hc => mem_sanitizedBase_isBaseChar hc
  show sanitizeList (b ++ ['.', 'w', 'e', 'b', 'p']) = b ++ ['.', 'w', 'e', 'b', 'p']
  unfold sanitizeList
  congr 1
  unfold sanitizedBase
  rw [stripExt_append_webp]
  rw [List.take_of_length_le (by rw [hb]; exact length_sanitizedBase_le _)]
  unfold collapseSpaces
  rw [collapseSpacesAux_eq_self b (fun c hc => isBaseChar_not_space (hbase c hc)) false]
  rw [List.filter_eq_self.2 (fun c hc => isBaseChar_isKept (hbase c hc))]
  exact map_eq_self_of_mem (fun c hc => isBaseChar_toLower_self (hbase c hc))
/-! ### Claim C10: session role defaulting and its effect on the admin gate -/

/-- C10: the session callback assigns role `"user"` whenever no `Profile`
document matches the authenticated user's id or the profile lookup fails, and
any session whose user has no stored admin profile is rejected with 403 by
`checkAdminRole`. -/
theorem sessionCallback_role_defaults (profiles : List ProfileDoc)
    (lookupFails : Bool) (sess : Session) (u : SessionUser) (uid : String)
    (hu : sess.user = some u) :
    ((profiles.find? (fun p => p.authId == uid) = none ∨ lookupFails = true) →
      (sessionCallback profiles lookupFails sess uid).user =
        some { u with id := uid, role := some "user" }) ∧
    ((lookupFails = true ∨ ∀ p ∈ profiles, p.authId = uid → p.role ≠ "admin") →
      checkAdminRole (some (sessionCallback profiles lookupFails sess uid)) =
        some ⟨403⟩) := by
  have husr : ("user" == "admin") = false := by decide
  cases hf : lookupFails with
  | true =>
    constructor
    · intro _
      simp [sessionCallback, hu]
    · intro _
      simp [sessionCallback, hu, checkAdminRole, husr]
  | false =>
    constructor
    · intro h
      rcases h with hnone | hfail
      · simp [sessionCallback, hu, hnone]
      · exact absurd hfail (by simp [hf])
    · intro h
      have h' : ∀ p ∈ profiles, p.authId = uid → p.role ≠ "admin" := by
        rcases h with hfail | h'
        · exact absurd hfail (by simp [hf])
        · exact h'
      cases hfind : profiles.find? (fun p => p.authId == uid) with
      | none => simp [sessionCallback, hu, hfind, checkAdminRole, husr]
      | some p =>
        have hp : p ∈ profiles := List.mem_of_find?_eq_some hfind
        have hpid := List.find?_some hfind
        have hrole : p.role ≠ "admin" := h' p hp (eq_of_beq hpid)
        by_cases he : (p.role == "") = true
        · simp [sessionCallback, hu, hfind, he, checkAdminRole, husr]
        · have hne : (p.role == "admin") = false := beq_eq_false_iff_ne.mpr hrole
          simp [sessionCallback, hu, hfind, he, checkAdminRole, hne]

/-- Witness for C10 at a concrete input: one non-admin profile for another
user, lookup succeeds. -/
theorem sessionCallback_role_defaults_witness :
    (sessionCallback [⟨"g2", "user"⟩] false ⟨some ⟨"", none⟩⟩ "g1").user =
      some ⟨"g1", some "user"⟩ ∧
    checkAdminRole (some (sessionCallback [⟨"g2", "user"⟩] false ⟨some ⟨"", none⟩⟩ "g1")) =
      some ⟨403⟩ := by
  have h := sessionCallback_role_defaults [⟨"g2", "user"⟩] false
    ⟨some ⟨"", none⟩⟩ ⟨"", none⟩ "g1" rfl
  exact ⟨h.1 (Or.inl (by decide)), h.2 (Or.inr (by decide))⟩

/-! ### Claim C3: authorization on the mutation endpoints -/

/-- C3 (amended): for the admin-checked mutation handlers — tag create, tag
update, tag delete, artwork create (gallery POST) and artwork update/delete on
the per-artwork route — a request with no session gets 401 and a session whose
role is not `"admin"` gets 403; `checkAdminRole` passes exactly when the
session's role is `"admin"`.  The PUT/DELETE handlers of the gallery
collection route check only that a session exists (the counterexample shows a
non-admin session reaching the mutation there). -/
theorem adminMutation_auth (u : SessionUser) (body : Option TagBody)
    (tid aid : Nat) (form : FormPut) (file : Option String)
    (data : Option UploadData) (batch uploadOk thumbOk s1 s2 : Bool)
    (db : DB) (s3 : List String)
    (hrole : u.role ≠ some "admin") :
    ((tagsPOST none body db).status = 401 ∧
     (tagIdPUT none tid body db).status = 401 ∧
     (tagIdDELETE none tid db).status = 401 ∧
     (galleryPOST none file data batch uploadOk thumbOk db s3).status = 401 ∧
     (artworkPUT none aid form db s3).status = 401 ∧
     (artworkDELETE none aid s1 s2 db s3).status = 401) ∧
    ((tagsPOST (some ⟨some u⟩) body db).status = 403 ∧
     (tagIdPUT (some ⟨some u⟩) tid body db).status = 403 ∧
     (tagIdDELETE (some ⟨some u⟩) tid db).status = 403 ∧
     (galleryPOST (some ⟨some u⟩) file data batch uploadOk thumbOk db s3).status = 403 ∧
     (artworkPUT (some ⟨some u⟩) aid form db s3).status = 403 ∧
     (artworkDELETE (some ⟨some u⟩) aid s1 s2 db s3).status = 403) ∧
    (∀ s : Option Session, checkAdminRole s = none ↔
      ∃ v : SessionUser, s = some ⟨some v⟩ ∧ v.role = some "admin") := by
  have hc := checkAdminRole_not_admin hrole
  refine ⟨⟨rfl, rfl, rfl, rfl, rfl, rfl⟩, ⟨?_, ?_, ?_, ?_, ?_, ?_⟩,
    checkAdminRole_eq_none_iff⟩
  · unfold tagsPOST
    rw [hc]
  · unfold tagIdPUT
    rw [hc]
  · unfold tagIdDELETE
    rw [hc]
  · unfold galleryPOST
    rw [hc]
  · unfold artworkPUT
    rw [hc]
  · unfold artworkDELETE
    rw [hc]

/-- Witness for C3 at a concrete input. -/
theorem adminMutation_auth_witness :
    ((tagsPOST none none ⟨[], [], 0⟩).status = 401 ∧
     (tagIdPUT none 0 none ⟨[], [], 0⟩).status = 401 ∧
     (tagIdDELETE none 0 ⟨[], [], 0⟩).status = 401 ∧
     (galleryPOST none none none false true true ⟨[], [], 0⟩ []).status = 401 ∧
     (artworkPUT none 0 ⟨none, none, none, none, none⟩ ⟨[], [], 0⟩ []).status = 401 ∧
     (artworkDELETE none 0 true true ⟨[], [], 0⟩ []).status = 401) ∧
    ((tagsPOST (some ⟨some ⟨"u2", some "user"⟩⟩) none ⟨[], [], 0⟩).status = 403 ∧
     (tagIdPUT (some ⟨some ⟨"u2", some "user"⟩⟩) 0 none ⟨[], [], 0⟩).status = 403 ∧
     (tagIdDELETE (some ⟨some ⟨"u2", some "user"⟩⟩) 0 ⟨[], [], 0⟩).status = 403 ∧
     (galleryPOST (some ⟨some ⟨"u2", some "user"⟩⟩) none none false true true
        ⟨[], [], 0⟩ []).status = 403 ∧
     (artworkPUT (some ⟨some ⟨"u2", some "user"⟩⟩) 0 ⟨none, none, none, none, none⟩
        ⟨[], [], 0⟩ []).status = 403 ∧
     (artworkDELETE (some ⟨some ⟨"u2", some "user"⟩⟩) 0 true true
        ⟨[], [], 0⟩ []).status = 403) ∧
    (∀ s : Option Session, checkAdminRole s = none ↔
      ∃ v : SessionUser, s = some ⟨some v⟩ ∧ v.role = some "admin") :=
  adminMutation_auth ⟨"u2", some "user"⟩ none 0 0 ⟨none, none, none, none, none⟩
    none none false true true true true ⟨[], [], 0⟩ [] (by decide)

/-- Counterexample for C3 as stated: the gallery-collection DELETE handler is
an artwork-delete mutation endpoint, yet a session whose role is `"user"`
is not answered with 403 — the request passes the session check and deletes
the artwork (status 200). -/
theorem galleryCollectionDELETE_no_admin_check :
    (galleryCollectionDELETE (some ⟨some ⟨"u2", some "user"⟩⟩) 1
        ⟨[], [⟨1, "n", "", "s", "t", "", [], 0, 0, 0, 0, none⟩], 2⟩ []).status = 200 ∧
    (galleryCollectionDELETE (some ⟨some ⟨"u2", some "user"⟩⟩) 1
        ⟨[], [⟨1, "n", "", "s", "t", "", [], 0, 0, 0, 0, none⟩], 2⟩ []).db.artworks = [] := by
  constructor
  · rfl
  · rfl

/-! ### Frame lemmas for the tag and artwork operations -/

theorem insertTag_artworks {db db' : DB} {l t : String} {tg : TagDoc}
    (h : insertTag db l t = .ok (tg, db')) : db'.artworks = db.artworks := by
  simp only [insertTag] at h
  split at h
  · exact absurd h (by simp)
  · split at h
    · exact absurd h (by simp)
    · split at h
      · exact absurd h (by simp)
      · split at h
        · exact absurd h (by simp)
        · simp only [Except.ok.injEq, Prod.mk.injEq] at h
          rw [← h.2]

theorem upsertTag_artworks {db db' : DB} {l t : String} {tg : TagDoc}
    (h : upsertTag db l t = .ok (tg, db')) : db'.artworks = db.artworks := by
  unfold upsertTag at h
  split at h
  · simp only [Except.ok.injEq, Prod.mk.injEq] at h
    rw [← h.2]
  · exact insertTag_artworks h

theorem updateArtworkById_proj {db db' : DB} {id : Nat}
    {upd : ArtworkDoc → ArtworkDoc} {res : Option ArtworkDoc}
    (h : updateArtworkById db id upd = .ok (res, db'))
    (hpr : ∀ a, (upd a).aid = a.aid ∧ (upd a).src = a.src ∧ (upd a).thumbSrc = a.thumbSrc)
    (hnodup : (db.artworks.map ArtworkDoc.aid).Nodup) :
    db'.artworks.map (fun a => (a.aid, a.src, a.thumbSrc)) =
      db.artworks.map (fun a => (a.aid, a.src, a.thumbSrc)) := by
  unfold updateArtworkById at h
  cases hfind : findArtworkById db.artworks id with
  | none =>
    rw [hfind] at h
    dsimp only at h
    simp only [Except.ok.injEq, Prod.mk.injEq] at h
    rw [← h.2]
  | some a =>
    rw [hfind] at h
    dsimp only at h
    split at h
    · exact absurd h (by simp)
    · simp only [Except.ok.injEq, Prod.mk.injEq] at h
      rw [← h.2]
      have hfind' : db.artworks.find? (fun b => b.aid == id) = some a := hfind
      have ha : a ∈ db.artworks := List.mem_of_find?_eq_some hfind'
      have hbeq := List.find?_some hfind'
      have haid : a.aid = id := eq_of_beq hbeq
      rw [List.map_map]
      refine List.map_congr_left (fun b hb => ?_)
      by_cases hbid : (b.aid == id) = true
      · have hba : b = a :=
          List.inj_on_of_nodup_map hnodup hb ha (by rw [eq_of_beq hbid, haid])
        obtain ⟨p1, p2, p3⟩ := hpr a
        simp [Function.comp, hbid, p1, p2, p3, hba, haid]
      · simp [Function.comp, hbid]

/-! ### Claim C8: tag deletion leaves artworks untouched -/

/-- C8: deleting an existing tag by id removes exactly the documents bearing
that id from the tag collection and leaves every artwork document unchanged,
so artwork references to the deleted tag dangle. -/
theorem tagIdDELETE_spec (sess : Option Session) (id : Nat) (db : DB) (t : TagDoc)
    (hadmin : checkAdminRole sess = none)
    (ht : findTagById db.tags id = some t) :
    (tagIdDELETE sess id db).status = 200 ∧
    (tagIdDELETE sess id db).db.artworks = db.artworks ∧
    (tagIdDELETE sess id db).db.tags = db.tags.filter (fun u => u.tid != id) ∧
    (∀ u ∈ db.tags, u.tid ≠ id → u ∈ (tagIdDELETE sess id db).db.tags) ∧
    (∀ u ∈ (tagIdDELETE sess id db).db.tags, u ∈ db.tags ∧ u.tid ≠ id) := by
  obtain ⟨v, rfl, _⟩ := checkAdminRole_none_elim hadmin
  unfold tagIdDELETE
  rw [hadmin, ht]
  refine ⟨rfl, rfl, rfl, ?_, ?_⟩
  · intro u hu hne
    exact List.mem_filter.2 ⟨hu, by simpa using hne⟩
  · intro u hu
    have h := List.mem_filter.1 hu
    exact ⟨h.1, by simpa using h.2⟩

/-- Witness for C8: deleting tag 10 from the fixture database. -/
theorem tagIdDELETE_spec_witness :
    (tagIdDELETE adminSession 10 dbFix).status = 200 ∧
    (tagIdDELETE adminSession 10 dbFix).db.artworks = [artFix] := by
  have h := tagIdDELETE_spec adminSession 10 dbFix ⟨10, "Paint", "category"⟩
    (by decide) (by decide)
  exact ⟨h.1, h.2.1⟩

/-! ### Claim C4: artwork deletion survives object-store failures -/

/-- C4: when the artwork exists, the per-artwork DELETE removes the database
record and answers 200 for every combination of S3 deletion outcomes
(`s1`/`s2`), and when the id is unknown it answers 404 changing nothing. -/
theorem artworkDELETE_spec (sess : Option Session) (id : Nat) (s1 s2 : Bool)
    (db : DB) (s3 : List String) (hadmin : checkAdminRole sess = none) :
    (∀ a, findArtworkById db.artworks id = some a →
      (artworkDELETE sess id s1 s2 db s3).status = 200 ∧
      (artworkDELETE sess id s1 s2 db s3).db.artworks =
        db.artworks.filter (fun b => b.aid != id) ∧
      (artworkDELETE sess id s1 s2 db s3).db.tags = db.tags ∧
      ∀ b ∈ (artworkDELETE sess id s1 s2 db s3).db.artworks, b.aid ≠ id) ∧
    (findArtworkById db.artworks id = none →
      artworkDELETE sess id s1 s2 db s3 = ⟨404, db, s3⟩) := by
  obtain ⟨v, rfl, _⟩ := checkAdminRole_none_elim hadmin
  constructor
  · intro a ha
    unfold artworkDELETE
    rw [hadmin, ha]
    refine ⟨rfl, rfl, rfl, ?_⟩
    intro b hb
    have h := List.mem_filter.1 hb
    simpa using h.2
  · intro hnone
    unfold artworkDELETE
    rw [hadmin, hnone]

/-- Witness for C4: both S3 deletions fail, the record is removed anyway; an
unknown id gives 404 without any change. -/
theorem artworkDELETE_spec_witness :
    (artworkDELETE adminSession 1 false false dbFix s3Fix).status = 200 ∧
    (artworkDELETE adminSession 1 false false dbFix s3Fix).db.artworks = [] ∧
    artworkDELETE adminSession 9 false false dbFix s3Fix = ⟨404, dbFix, s3Fix⟩ := by
  have h1 := (artworkDELETE_spec adminSession 1 false false dbFix s3Fix
    (by decide)).1 artFix (by decide)
  have h2 := (artworkDELETE_spec adminSession 9 false false dbFix s3Fix
    (by decide)).2 (by decide)
  exact ⟨h1.1, by rw [h1.2.1]; decide, h2⟩

/-! ### Claim C1: label uniqueness scope -/

/-- C1: at the failing input — a category tag labelled `Large` already stored
and an admin POST of `{label: "Large", type: "size"}` — the handler answers
500 and stores nothing, because the schema's field-level `unique: true` on
`label` rejects the insert even though the `(label, type)` pair is new.  Tags
with the same label under different types therefore cannot coexist. -/
theorem tagsPOST_same_label_other_type_rejected :
    tagsPOST adminSession (some ⟨some "Large", some "size"⟩)
        ⟨[⟨1, "Large", "category"⟩], [], 2⟩ =
      ⟨500, ⟨[⟨1, "Large", "category"⟩], [], 2⟩, none⟩ := by
  decide

/-! ### Claim C7: the tags POST contract -/

/-- C7 counterexample: two admin requests that the claim says must create a
tag are rejected with 500 and no state change — `{label: "Small", type:
"size"}` while a category `Small` exists (field-level label uniqueness), and
`{label: "Oil", type: "bogus"}` (schema type enum). -/
theorem tagsPOST_otherwise_create_fails :
    tagsPOST adminSession (some ⟨some "Small", some "size"⟩)
        ⟨[⟨1, "Small", "category"⟩], [], 2⟩ =
      ⟨500, ⟨[⟨1, "Small", "category"⟩], [], 2⟩, none⟩ ∧
    tagsPOST adminSession (some ⟨some "Oil", some "bogus"⟩) ⟨[], [], 0⟩ =
      ⟨500, ⟨[], [], 0⟩, none⟩ := by
  constructor
  · decide
  · decide

/-- C7 (amended): with an admin session the tags POST answers 400 when label
or type is missing, 400 when a tag with the same `(label, type)` pair exists,
and creates and returns the new tag when additionally the type is a valid tag
type and no stored tag of any type carries the same label (otherwise the
schema rejects the insert and the handler answers 500). -/
theorem tagsPOST_spec (sess : Option Session) (l t : String) (db : DB)
    (hadmin : checkAdminRole sess = none) :
    (tagsPOST sess (some ⟨none, some t⟩) db = ⟨400, db, none⟩) ∧
    (tagsPOST sess (some ⟨some l, none⟩) db = ⟨400, db, none⟩) ∧
    (l ≠ "" → t ≠ "" →
      ((∃ u, findTag db.tags l t = some u) →
        tagsPOST sess (some ⟨some l, some t⟩) db = ⟨400, db, none⟩) ∧
      (findTag db.tags l t = none → validTagType (jsTrim t) = true → jsTrim l ≠ "" →
        (∀ u ∈ db.tags, u.label ≠ jsTrim l) →
        tagsPOST sess (some ⟨some l, some t⟩) db =
          ⟨200,
            ⟨db.tags ++ [⟨db.nextId, jsTrim l, jsTrim t⟩], db.artworks, db.nextId + 1⟩,
            some ⟨db.nextId, jsTrim l, jsTrim t⟩⟩)) := by
  obtain ⟨v, rfl, _⟩ := checkAdminRole_none_elim hadmin
  unfold tagsPOST
  rw [hadmin]
  refine ⟨rfl, ?_, ?_⟩
  · simp [strFalsy]
  · intro hl ht
    have hbl : strFalsy (some l) = false := by
      simp only [strFalsy]
      exact beq_eq_false_iff_ne.mpr hl
    have hbt : strFalsy (some t) = false := by
      simp only [strFalsy]
      exact beq_eq_false_iff_ne.mpr ht
    constructor
    · rintro ⟨u, hu⟩
      simp [hbl, hbt, hu]
    · intro hnone hvalid hltrim hlabels
      have hany1 : db.tags.any (fun u => u.label == jsTrim l) = false := by
        refine List.any_eq_false.mpr (fun u hu => ?_)
        simp [beq_eq_false_iff_ne.mpr (hlabels u hu)]
      have hany2 : db.tags.any
          (fun u => u.label == jsTrim l && u.ttype == jsTrim t) = false := by
        refine List.any_eq_false.mpr (fun u hu => ?_)
        simp [beq_eq_false_iff_ne.mpr (hlabels u hu)]
      have hin : insertTag db l t =
          .ok (⟨db.nextId, jsTrim l, jsTrim t⟩,
            ⟨db.tags ++ [⟨db.nextId, jsTrim l, jsTrim t⟩], db.artworks, db.nextId + 1⟩) := by
        have e1 : (jsTrim l == "") = false := beq_eq_false_iff_ne.mpr hltrim
        simp [insertTag, e1, hvalid, hany1, hany2]
      simp [hbl, hbt, hnone, hin]

/-- Witness for C7: concrete 400 and 200 answers on an empty database. -/
theorem tagsPOST_spec_witness :
    tagsPOST adminSession (some ⟨none, some "size"⟩) ⟨[], [], 0⟩ =
      ⟨400, ⟨[], [], 0⟩, none⟩ ∧
    tagsPOST adminSession (some ⟨some "Tiny", some "size"⟩) ⟨[], [], 0⟩ =
      ⟨200, ⟨[⟨0, "Tiny", "size"⟩], [], 1⟩, some ⟨0, "Tiny", "size"⟩⟩ := by
  have h := tagsPOST_spec adminSession "Tiny" "size" ⟨[], [], 0⟩ (by decide)
  refine ⟨h.1, ?_⟩
  have h3 := (h.2.2 (by decide) (by decide)).2 (by decide) (by decide)
    (by decide) (by simp)
  exact h3

/-! ### Claim C2: the artwork PUT never touches the stored image URLs -/

/-- C2 counterexample: editing the title of `artFix` from `old-name` to
`new-name` succeeds (200) and changes the stored name, but the object store is
untouched (the old keys are still the only ones) and the stored `src` is still
the URL derived from the old title, not from the new one. -/
theorem artworkPUT_title_edit_no_rename :
    (artworkPUT adminSession 1 ⟨some "new-name", none, none, none, none⟩
        dbFix s3Fix).status = 200 ∧
    (artworkPUT adminSession 1 ⟨some "new-name", none, none, none, none⟩
        dbFix s3Fix).s3 = s3Fix ∧
    (artworkPUT adminSession 1 ⟨some "new-name", none, none, none, none⟩
        dbFix s3Fix).db.artworks = [{ artFix with name := "new-name" }] ∧
    artFix.src = urlFor "genacourtney/images/old-name.webp" ∧
    sanitizeFilename "new-name" = "new-name.webp" ∧
    urlFor "genacourtney/images/old-name.webp" ≠
      urlFor ("genacourtney/images/" ++ sanitizeFilename "new-name") := by
  refine ⟨?_, ?_, ?_, ?_, ?_, ?_⟩ <;> decide

/-- C2 (amended): every run of the per-artwork PUT — any edit, title edits
included — leaves the object store and the `(aid, src, thumbSrc)` projection
of every artwork document unchanged; only name, description and tag
references can change. -/
theorem artworkPUT_preserves_images (sess : Option Session) (id : Nat)
    (form : FormPut) (db : DB) (s3 : List String)
    (hnodup : (db.artworks.map ArtworkDoc.aid).Nodup) :
    (artworkPUT sess id form db s3).s3 = s3 ∧
    (artworkPUT sess id form db s3).db.artworks.map
        (fun a => (a.aid, a.src, a.thumbSrc)) =
      db.artworks.map (fun a => (a.aid, a.src, a.thumbSrc)) := by
  unfold artworkPUT
  split
  · exact ⟨rfl, rfl⟩
  · split
    · exact ⟨rfl, rfl⟩
    · split
      · exact ⟨rfl, rfl⟩
      · next existing hfind =>
        dsimp only
        split
        · exact ⟨rfl, rfl⟩
        · next catTag db1 h1 =>
          have e1 := upsertTag_artworks h1
          split
          · exact ⟨rfl, by rw [e1]⟩
          · next medTag db2 h2 =>
            have e2 := upsertTag_artworks h2
            split
            · exact ⟨rfl, by rw [e2, e1]⟩
            · next sizeTag db3 h3 =>
              have e3 := upsertTag_artworks h3
              have hn3 : (db3.artworks.map ArtworkDoc.aid).Nodup := by
                rw [e3, e2, e1]; exact hnodup
              split
              · exact ⟨rfl, by rw [e3, e2, e1]⟩
              · next db4 hupd =>
                refine ⟨rfl, ?_⟩
                have := updateArtworkById_proj hupd
                  (fun a => ⟨rfl, rfl, rfl⟩) hn3
                rw [this, e3, e2, e1]
              · next x db4 hupd =>
                refine ⟨rfl, ?_⟩
                have := updateArtworkById_proj hupd
                  (fun a => ⟨rfl, rfl, rfl⟩) hn3
                rw [this, e3, e2, e1]

/-- Witness for C2 at a concrete input. -/
theorem artworkPUT_preserves_images_witness :
    (artworkPUT adminSession 1 ⟨some "x", none, none, none, none⟩ dbFix s3Fix).s3
      = s3Fix ∧
    (artworkPUT adminSession 1 ⟨some "x", none, none, none, none⟩ dbFix
        s3Fix).db.artworks.map (fun a => (a.aid, a.src, a.thumbSrc)) =
      dbFix.artworks.map (fun a => (a.aid, a.src, a.thumbSrc)) :=
  artworkPUT_preserves_images adminSession 1 ⟨some "x", none, none, none, none⟩
    dbFix s3Fix (by decide)

/-! ### Claim C5: no rollback of tag upserts when the artwork create fails -/

theorem insertArtwork_dup_fails (db : DB) (name de sr th : String)
    (cats : List Nat) (m s mw mh : Nat)
    (hdup : ∃ a ∈ db.artworks, a.name = name) :
    insertArtwork db name de sr th cats m s mw mh = .error () := by
  obtain ⟨a, ha, hn⟩ := hdup
  have hany : db.artworks.any (fun b => b.name == name) = true :=
    List.any_eq_true.mpr ⟨a, ha, by simp [hn]⟩
  unfold insertArtwork
  split
  · rfl
  · simp_all

/-- C5: when the gallery POST reaches `Artwork.create` (admin session, file
and data present, both uploads succeed, three successful tag upserts) and an
artwork with the computed name already exists, the request answers 500 but the
database keeps the post-upsert tag collection — nothing is rolled back — and
the artwork collection is unchanged. -/
theorem galleryPOST_no_rollback (sess : Option Session) (fileName : String)
    (d : UploadData) (batch : Bool) (db db1 db2 db3 : DB) (s3 : List String)
    (ct mt st : TagDoc)
    (hadmin : checkAdminRole sess = none)
    (h1 : upsertTag db (jsOr d.category "Uncategorized") "category" = .ok (ct, db1))
    (h2 : upsertTag db1 (jsOr d.medium "Mixed Media") "medium" = .ok (mt, db2))
    (h3 : upsertTag db2 (jsOr d.size "Various") "size" = .ok (st, db3))
    (hdup : ∃ a ∈ db3.artworks, a.name = jsOr d.title ⟨stripExt fileName.data⟩) :
    galleryPOST sess (some fileName) (some d) batch true true db s3 =
      ⟨500, db3,
        s3Put
          (s3Put s3 ("genacourtney/images/" ++
            sanitizeFilename (if batch then fileName else jsOr d.title fileName)))
          ("genacourtney/images/thumbnails/" ++ thumbKeyName
            (sanitizeFilename (if batch then fileName else jsOr d.title fileName)))⟩ ∧
    db3.artworks = db.artworks := by
  have e1 := upsertTag_artworks h1
  have e2 := upsertTag_artworks h2
  have e3 := upsertTag_artworks h3
  have hins := insertArtwork_dup_fails db3 (jsOr d.title ⟨stripExt fileName.data⟩)
    (jsOr d.description "")
    (urlFor ("genacourtney/images/" ++
      sanitizeFilename (if batch then fileName else jsOr d.title fileName)))
    (urlFor ("genacourtney/images/thumbnails/" ++ thumbKeyName
      (sanitizeFilename (if batch then fileName else jsOr d.title fileName))))
    [ct.tid] mt.tid st.tid 0 0 hdup
  refine ⟨?_, by rw [e3, e2, e1]⟩
  unfold galleryPOST
  rw [hadmin]
  dsimp only
  rw [h1]
  dsimp only
  rw [h2]
  dsimp only
  rw [h3]
  dsimp only
  rw [hins]
  rfl

/-- Witness for C5: an upload titled `dup` while an artwork `dup` exists; the
three tags created by the upserts survive the 500 answer. -/
theorem galleryPOST_no_rollback_witness :
    (galleryPOST adminSession (some "f.png")
        (some ⟨some "dup", none, some "Oil", none, none⟩) false true true
        ⟨[], [artDup], 5⟩ []).status = 500 ∧
    (galleryPOST adminSession (some "f.png")
        (some ⟨some "dup", none, some "Oil", none, none⟩) false true true
        ⟨[], [artDup], 5⟩ []).db.tags =
      [⟨5, "Oil", "category"⟩, ⟨6, "Mixed Media", "medium"⟩, ⟨7, "Various", "size"⟩] ∧
    (galleryPOST adminSession (some "f.png")
        (some ⟨some "dup", none, some "Oil", none, none⟩) false true true
        ⟨[], [artDup], 5⟩ []).db.artworks = [artDup] := by
  have h := galleryPOST_no_rollback adminSession "f.png"
    ⟨some "dup", none, some "Oil", none, none⟩ false
    ⟨[], [artDup], 5⟩
    ⟨[⟨5, "Oil", "category"⟩], [artDup], 6⟩
    ⟨[⟨5, "Oil", "category"⟩, ⟨6, "Mixed Media", "medium"⟩], [artDup], 7⟩
    ⟨[⟨5, "Oil", "category"⟩, ⟨6, "Mixed Media", "medium"⟩, ⟨7, "Various", "size"⟩],
      [artDup], 8⟩
    [] ⟨5, "Oil", "category"⟩ ⟨6, "Mixed Media", "medium"⟩ ⟨7, "Various", "size"⟩
    (by decide) (by rfl) (by rfl) (by rfl) (by decide)
  rw [h.1]
  exact ⟨rfl, rfl, rfl⟩

/-! ### Claim C6: pagination of the two listing GETs -/

theorem mem_insertDesc {a b : ArtworkDoc} {l : List ArtworkDoc} :
    b ∈ insertDesc a l ↔ b = a ∨ b ∈ l := by
  induction l with
  | nil => simp [insertDesc]
  | cons c l ih =>
    unfold insertDesc
    by_cases h : caVal c.createdAt ≤ caVal a.createdAt
    · simp [h]
    · simp [h, ih]
      tauto

theorem insertDesc_perm (a : ArtworkDoc) (l : List ArtworkDoc) :
    List.Perm (insertDesc a l) (a :: l) := by
  induction l with
  | nil => exact List.Perm.refl _
  | cons c l ih =>
    unfold insertDesc
    by_cases h : caVal c.createdAt ≤ caVal a.createdAt
    · rw [if_pos h]
    · rw [if_neg h]
      exact (List.Perm.cons c ih).trans (List.Perm.swap a c l)

theorem sortByCreatedAtDesc_perm (l : List ArtworkDoc) :
    List.Perm (sortByCreatedAtDesc l) l := by
  induction l with
  | nil => exact List.Perm.refl _
  | cons a l ih => exact (insertDesc_perm a _).trans (List.Perm.cons a ih)

theorem pairwise_insertDesc {a : ArtworkDoc} {l : List ArtworkDoc}
    (h : l.Pairwise (fun x y => caVal y.createdAt ≤ caVal x.createdAt)) :
    (insertDesc a l).Pairwise
      (fun x y => caVal y.createdAt ≤ caVal x.createdAt) := by
  induction l with
  | nil => simp [insertDesc]
  | cons c l ih =>
    rcases List.pairwise_cons.1 h with ⟨hc, hl⟩
    unfold insertDesc
    by_cases hca : caVal c.createdAt ≤ caVal a.createdAt
    · rw [if_pos hca]
      refine List.pairwise_cons.2 ⟨?_, h⟩
      intro b hb
      rcases List.mem_cons.1 hb with rfl | hbl
      · exact hca
      · exact le_trans (hc b hbl) hca
    · rw [if_neg hca]
      refine List.pairwise_cons.2 ⟨?_, ih hl⟩
      intro b hb
      rcases mem_insertDesc.1 hb with rfl | hbl
      · exact le_of_not_le hca
      · exact hc b hbl

theorem sortByCreatedAtDesc_sorted (l : List ArtworkDoc) :
    (sortByCreatedAtDesc l).Pairwise
      (fun x y => caVal y.createdAt ≤ caVal x.createdAt) := by
  induction l with
  | nil => simp [sortByCreatedAtDesc]
  | cons a l ih => exact pairwise_insertDesc ih

theorem ceilDiv_spec (total limit : Nat) (h : 1 ≤ limit) :
    total ≤ ((total + limit - 1) / limit) * limit ∧
    ((total + limit - 1) / limit) * limit < total + limit := by
  have hdm := Nat.div_add_mod (total + limit - 1) limit
  have hr : (total + limit - 1) % limit < limit := Nat.mod_lt _ h
  rw [Nat.mul_comm]
  generalize hM : limit * ((total + limit - 1) / limit) = M at hdm ⊢
  omega

/-- C6: for pages from 1 up, both listing GETs default to page 1 and limit
12; the returned window is `take limit` of `drop ((page - 1) * limit)` of the
artworks sorted by `createdAt` descending (a sorted permutation of the
matching artworks), hence at most `limit` items; `total` counts all matching
artworks; in the filtered listing `totalPages` is the ceiling of
`total / limit`; and `page = 0` — a negative Mongo skip — is answered 500 by
both GETs. -/
theorem galleryGET_pagination (db : DB) (pp lp : Option Nat)
    (c m s : Option String) (hp : 1 ≤ pp.getD 1) (hl : 1 ≤ lp.getD 12) :
    galleryGET db none none = galleryGET db (some 1) (some 12) ∧
    artworkListGET db none none c m s =
      artworkListGET db (some 1) (some 12) c m s ∧
    (galleryGET db pp lp).status = 200 ∧
    (galleryGET db pp lp).items =
      ((sortByCreatedAtDesc db.artworks).drop
        ((pp.getD 1 - 1) * lp.getD 12)).take (lp.getD 12) ∧
    (galleryGET db pp lp).items.length ≤ lp.getD 12 ∧
    (galleryGET db pp lp).total = db.artworks.length ∧
    List.Perm (sortByCreatedAtDesc db.artworks) db.artworks ∧
    (sortByCreatedAtDesc db.artworks).Pairwise
      (fun x y => caVal y.createdAt ≤ caVal x.createdAt) ∧
    (artworkListGET db pp lp c m s).total =
      (db.artworks.filter (buildQuery db.tags c m s)).length ∧
    (artworkListGET db pp lp c m s).items =
      ((sortByCreatedAtDesc (db.artworks.filter (buildQuery db.tags c m s))).drop
        ((pp.getD 1 - 1) * lp.getD 12)).take (lp.getD 12) ∧
    (artworkListGET db pp lp c m s).items.length ≤ lp.getD 12 ∧
    ((artworkListGET db pp lp c m s).total ≤
        (artworkListGET db pp lp c m s).totalPages * lp.getD 12 ∧
      (artworkListGET db pp lp c m s).totalPages * lp.getD 12 <
        (artworkListGET db pp lp c m s).total + lp.getD 12) ∧
    (galleryGET db (some 0) lp).status = 500 ∧
    (artworkListGET db (some 0) lp c m s).status = 500 := by
  have htake : ∀ (L : List ArtworkDoc) (n k : Nat), ((L.drop k).take n).length ≤ n := by
    intro L n k
    rw [List.length_take]
    exact Nat.min_le_left _ _
  have hp' : (1 : Int) ≤ (pp.getD 1 : Int) := by exact_mod_cast hp
  have hnonneg : ¬ ((pp.getD 1 : Int) - 1) * (lp.getD 12 : Int) < 0 := by
    push_neg
    exact mul_nonneg (by omega) (by positivity)
  have htn : (((pp.getD 1 : Int) - 1) * (lp.getD 12 : Int)).toNat =
      (pp.getD 1 - 1) * lp.getD 12 := by
    have hc : ((pp.getD 1 : Int) - 1) = ((pp.getD 1 - 1 : Nat) : Int) := by
      push_cast [Nat.cast_sub hp]
      ring
    rw [hc, ← Nat.cast_mul, Int.toNat_natCast]
  have hneg : ((((some 0 : Option Nat).getD 1 : Nat) : Int) - 1) * (lp.getD 12 : Int) < 0 := by
    have hl' : (1 : Int) ≤ (lp.getD 12 : Int) := by exact_mod_cast hl
    have hg0 : (((some 0 : Option Nat).getD 1 : Nat) : Int) = 0 := by rfl
    rw [hg0]
    nlinarith
  have hG : galleryGET db pp lp =
      ⟨200,
        ((sortByCreatedAtDesc db.artworks).drop
          ((pp.getD 1 - 1) * lp.getD 12)).take (lp.getD 12),
        db.artworks.length⟩ := by
    unfold galleryGET
    rw [if_neg hnonneg, htn]
  have hA : artworkListGET db pp lp c m s =
      ⟨200,
        ((sortByCreatedAtDesc (db.artworks.filter (buildQuery db.tags c m s))).drop
          ((pp.getD 1 - 1) * lp.getD 12)).take (lp.getD 12),
        (db.artworks.filter (buildQuery db.tags c m s)).length,
        ((db.artworks.filter (buildQuery db.tags c m s)).length + lp.getD 12 - 1) /
          lp.getD 12⟩ := by
    unfold artworkListGET
    rw [if_neg hnonneg, htn]
  refine ⟨rfl, rfl, by rw [hG], by rw [hG], ?_, by rw [hG],
    sortByCreatedAtDesc_perm _, sortByCreatedAtDesc_sorted _,
    by rw [hA], by rw [hA], ?_, ?_, ?_, ?_⟩
  · rw [hG]
    exact htake _ _ _
  · rw [hA]
    exact htake _ _ _
  · rw [hA]
    exact ceilDiv_spec _ (lp.getD 12) hl
  · unfold galleryGET
    rw [if_pos hneg]
  · unfold artworkListGET
    rw [if_pos hneg]

/-- Witness for C6: page 2 with limit 1 over a two-artwork database, and the
500 answer at page 0. -/
theorem galleryGET_pagination_witness :
    (galleryGET dbPage (some 2) (some 1)).total = dbPage.artworks.length ∧
    (galleryGET dbPage (some 2) (some 1)).items = [artQ] ∧
    (artworkListGET dbPage (some 2) (some 1) none none none).totalPages = 2 ∧
    (galleryGET dbPage (some 0) (some 1)).status = 500 := by
  obtain ⟨_, _, _, hitems, _, htot, _, _, _, _, _, hceil, h500, _⟩ :=
    galleryGET_pagination dbPage (some 2) (some 1) none none none
      (by decide) (by decide)
  refine ⟨htot, ?_, ?_, h500⟩
  · rw [hitems]
    decide
  · have h1 := hceil.1
    have h2 := hceil.2
    have he : (artworkListGET dbPage (some 2) (some 1) none none none).total = 2 := by
      decide
    have hg : (some 1 : Option Nat).getD 12 = 1 := rfl
    rw [he, hg] at h1 h2
    omega

end ArtPortfolio
